import Mathlib

/-!
Verification development for the `guise` style engine of the panoply repository.

The definitions below are a shallow embedding of the Rust sources:
  - `src/guise/style/style_attr.rs`  (`StyleAttr`, `apply`, `parse`, `parse_val`,
    `parse_uirect`, `parse_grid_placement`, scalar parsers)
  - `src/guise/element_style.rs`     (`ElementStyleAttr`, `ElementStyle`,
    `apply_attrs_to`, `from_ast`)
  - `src/guise/style/asset_ref.rs`   (`AssetRef`)
  - `src/guise/asset.rs`             (`GuiseTemplatesLoader::load`)

Machine floats (`f32`/`f64`) are modelled as exact decimal numbers (`Dec`,
a mantissa/power-of-ten pair kept in lowest terms): every claim below is about
parsing grammars and field routing, never about rounding.
Fallible Rust code is modelled with `RustOutcome`, which distinguishes a normal
`Ok`, a normal `Err`, and a panic (`unwrap`/`expect`/`panic!`).

Modules of the repository that are referenced by the sources above but are not
part of the source set (`expr.rs`, `typed_expr.rs`, `computed.rs`, `path.rs`,
`style.rs`, serde decoding) are modelled from the specification; each such
definition carries a doc comment starting with `Modelled from the spec:`.
-/

namespace Panoply

/-- Exact decimal number `mant / 10 ^ exp`, the model of `f32` values (every
float the sources handle is parsed from a decimal literal; rounding is
irrelevant to the claims).  Values are normalized by `Dec.norm`, so numeric
equality of decimals coincides with equality of this representation. -/
structure Dec where
  mant : Int
  exp : ℕ
deriving DecidableEq

/-- Strip trailing decimal zeros: canonical form of `m / 10 ^ e`. -/
def Dec.norm : Int → ℕ → Dec
  | m, 0 => ⟨m, 0⟩
  | m, e + 1 => if m % 10 = 0 then Dec.norm (m / 10) e else ⟨m, e + 1⟩

/-- Embed an integer. -/
def Dec.ofInt (m : Int) : Dec := ⟨m, 0⟩

/-- The rational value of a decimal (interpretation only; never used in
computations). -/
def Dec.toRat (d : Dec) : ℚ := (d.mant : ℚ) / (10 : ℚ) ^ d.exp

/-- Bevy `ui::Val`: a CSS length value.  Numeric payloads are exact decimals
standing in for `f32`. -/
inductive Val where
  | auto
  | px (v : Dec)
  | percent (v : Dec)
  | vw (v : Dec)
  | vh (v : Dec)
  | vmin (v : Dec)
  | vmax (v : Dec)
deriving DecidableEq

/-- Bevy `Color`: only the `Rgba`/`Hsla` forms are used by the sources. -/
inductive Color where
  | rgba (r g b a : Dec)
  | hsla (h s l a : Dec)
deriving DecidableEq

inductive PositionType where
  | absolute
  | relative
deriving DecidableEq

inductive OverflowAxis where
  | clip
  | visible
deriving DecidableEq

/-- Bevy `ui::Overflow`: per-axis overflow pair. -/
structure Overflow where
  x : OverflowAxis
  y : OverflowAxis
deriving DecidableEq

inductive Direction where
  | inherit
  | leftToRight
  | rightToLeft
deriving DecidableEq

inductive Display where
  | flex
  | grid
  | none
deriving DecidableEq

inductive AlignItems where
  | default
  | start
  | stretch
  | flexStart
  | flexEnd
  | center
  | baseline
  | endItems
deriving DecidableEq

inductive JustifyItems where
  | default
  | start
  | endItems
  | center
  | baseline
  | stretch
deriving DecidableEq

inductive AlignSelf where
  | auto
  | start
  | endItems
  | flexStart
  | flexEnd
  | center
  | baseline
  | stretch
deriving DecidableEq

inductive JustifySelf where
  | auto
  | start
  | endItems
  | center
  | baseline
  | stretch
deriving DecidableEq

inductive AlignContent where
  | default
  | start
  | endItems
  | flexStart
  | flexEnd
  | center
  | stretch
  | spaceBetween
  | spaceAround
  | spaceEvenly
deriving DecidableEq

inductive JustifyContent where
  | default
  | start
  | endItems
  | flexStart
  | flexEnd
  | center
  | spaceBetween
  | spaceAround
  | spaceEvenly
deriving DecidableEq

inductive FlexDirection where
  | row
  | column
  | rowReverse
  | columnReverse
deriving DecidableEq

inductive FlexWrap where
  | noWrap
  | wrap
  | wrapReverse
deriving DecidableEq

inductive GridAutoFlow where
  | row
  | column
  | rowDense
  | columnDense
deriving DecidableEq

inductive BreakLineOn where
  | noWrap
  | wordBoundary
  | anyCharacter
deriving DecidableEq

/-- Bevy `ui::UiRect`: four `Val` sides.  Field order matches bevy's
`UiRect::new(left, right, top, bottom)`. -/
structure UiRect where
  left : Val
  right : Val
  top : Val
  bottom : Val
deriving DecidableEq

/-- `UiRect::new` (bevy): argument order (left, right, top, bottom). -/
def UiRect.new (left right top bottom : Val) : UiRect :=
  ⟨left, right, top, bottom⟩

/-- Bevy `ui::GridPlacement`.  The `end` field of bevy is named `stop` here
because `end` is reserved in Lean.  Default is the automatic placement
`{ start: None, span: Some(1), end: None }`. -/
structure GridPlacement where
  start : Option Int
  span : Option Int
  stop : Option Int
deriving DecidableEq

def GridPlacement.default : GridPlacement := ⟨none, some 1, none⟩

def GridPlacement.setStart (g : GridPlacement) (v : Int) : GridPlacement :=
  { g with start := some v }

def GridPlacement.setSpan (g : GridPlacement) (v : Int) : GridPlacement :=
  { g with span := some v }

def GridPlacement.setEnd (g : GridPlacement) (v : Int) : GridPlacement :=
  { g with stop := some v }

/-- Modelled from the spec: the layout sub-record (`bevy ui::Style`) of
`ComputedStyle` (§3, "length fields in the target layout engine's length-union
type"); `computed.rs` is not among the sources, so the exact field set is the
one exercised by `StyleAttr::apply` and `ElementStyle::apply_attrs_to`. -/
structure UiStyle where
  display : Display
  position_type : PositionType
  overflow : Overflow
  direction : Direction
  left : Val
  right : Val
  top : Val
  bottom : Val
  width : Val
  height : Val
  min_width : Val
  min_height : Val
  max_width : Val
  max_height : Val
  margin : UiRect
  padding : UiRect
  border : UiRect
  flex_direction : FlexDirection
  flex_wrap : FlexWrap
  flex_grow : Dec
  flex_shrink : Dec
  flex_basis : Val
  row_gap : Val
  column_gap : Val
  align_items : AlignItems
  align_self : AlignSelf
  align_content : AlignContent
  justify_items : JustifyItems
  justify_self : JustifySelf
  justify_content : JustifyContent
  grid_auto_flow : GridAutoFlow
  grid_row : GridPlacement
  grid_column : GridPlacement
deriving DecidableEq

/-- Modelled from the spec: `ComputedStyle` (§3) — flat merged output record;
`computed.rs` is not among the sources.  `image` holds the optional resolved
asset handle (handles are modelled as the loaded path string). -/
structure ComputedStyle where
  style : UiStyle
  background_color : Option Color
  border_color : Option Color
  color : Option Color
  image : Option String
  z_index : Option Int
  line_break : Option BreakLineOn
deriving DecidableEq

/-- A convenient fully-concrete `ComputedStyle` used to instantiate witnesses. -/
def sampleComputed : ComputedStyle :=
  { style :=
    { display := .flex
      position_type := .relative
      overflow := ⟨.visible, .visible⟩
      direction := .inherit
      left := .auto
      right := .auto
      top := .auto
      bottom := .auto
      width := .auto
      height := .auto
      min_width := .auto
      min_height := .auto
      max_width := .auto
      max_height := .auto
      margin := ⟨.px ⟨0, 0⟩, .px ⟨0, 0⟩, .px ⟨0, 0⟩, .px ⟨0, 0⟩⟩
      padding := ⟨.px ⟨0, 0⟩, .px ⟨0, 0⟩, .px ⟨0, 0⟩, .px ⟨0, 0⟩⟩
      border := ⟨.px ⟨0, 0⟩, .px ⟨0, 0⟩, .px ⟨0, 0⟩, .px ⟨0, 0⟩⟩
      flex_direction := .row
      flex_wrap := .noWrap
      flex_grow := ⟨0, 0⟩
      flex_shrink := ⟨1, 0⟩
      flex_basis := .auto
      row_gap := .px ⟨0, 0⟩
      column_gap := .px ⟨0, 0⟩
      align_items := .default
      align_self := .auto
      align_content := .default
      justify_items := .default
      justify_self := .auto
      justify_content := .default
      grid_auto_flow := .row
      grid_row := GridPlacement.default
      grid_column := GridPlacement.default }
    background_color := none
    border_color := none
    color := none
    image := none
    z_index := none
    line_break := none }

mutual

/-- Modelled from the spec: `Expr` (§3) — dynamic tagged style value;
`expr.rs` is not among the sources.  `style` carries the nested attribute
list that `Expr::Style` references. -/
inductive Expr where
  | null
  | ident (s : String)
  | number (n : Dec)
  | color (c : Color)
  | length (v : Val)
  | rect (r : UiRect)
  | assetPath (p : String)
  | list (items : List Expr)
  | style (attrs : List ElementStyleAttr)

/-- `ElementStyleAttr` from `element_style.rs`: one variant per stylable
property.  A `TypedExpr<T>` of the source is its wrapped `Expr` (the phantom
result type is recovered by the per-variant `eval` used in `apply_attrs_to`);
`BackgroundImage` carries the already-resolved optional handle. -/
inductive ElementStyleAttr where
  | backgroundImage (image : Option String)
  | backgroundColor (e : Expr)
  | borderColor (e : Expr)
  | color (e : Expr)
  | zIndex (e : Expr)
  | display (e : Expr)
  | position (e : Expr)
  | overflow (e : Expr)
  | overflowX (e : Expr)
  | overflowY (e : Expr)
  | direction (e : Expr)
  | left (e : Expr)
  | right (e : Expr)
  | top (e : Expr)
  | bottom (e : Expr)
  | width (e : Expr)
  | height (e : Expr)
  | minWidth (e : Expr)
  | minHeight (e : Expr)
  | maxWidth (e : Expr)
  | maxHeight (e : Expr)
  | margin (e : Expr)
  | marginLeft (e : Expr)
  | marginRight (e : Expr)
  | marginTop (e : Expr)
  | marginBottom (e : Expr)
  | padding (e : Expr)
  | paddingLeft (e : Expr)
  | paddingRight (e : Expr)
  | paddingTop (e : Expr)
  | paddingBottom (e : Expr)
  | border (e : Expr)
  | borderLeft (e : Expr)
  | borderRight (e : Expr)
  | borderTop (e : Expr)
  | borderBottom (e : Expr)
  | flexDirection (e : Expr)
  | flexWrap (e : Expr)
  | flexGrow (e : Expr)
  | flexShrink (e : Expr)
  | flexBasis (e : Expr)
  | rowGap (e : Expr)
  | columnGap (e : Expr)
  | gap (e : Expr)
  | alignItems (e : Expr)
  | alignSelf (e : Expr)
  | alignContent (e : Expr)
  | justifyItems (e : Expr)
  | justifySelf (e : Expr)
  | justifyContent (e : Expr)

end

/-- `TypedExpr::eval` error (`typed_expr.rs` is not among the sources).
Modelled from the spec: §4.1/§7(c), a type mismatch at evaluation time. -/
inductive EvalError where
  | typeMismatch
deriving DecidableEq

/-- Modelled from the spec: `Expr::into_color` (§4.1).  The computed color
fields are `Option<Color>` (see `ElementStyle`), so the conversion produces an
optional color; `Null` converts to the explicit "no color". -/
def Expr.into_color : Expr → Option (Option Color)
  | .color c => some (some c)
  | .null => some none
  | _ => none

/-- Modelled from the spec: `Expr::into_i32` (§4.1) — validated narrowing of a
number to a signed 32-bit integer. -/
def Expr.into_i32 : Expr → Option Int
  | .number n => if n.exp = 0 then some n.mant else none
  | _ => none

/-- Modelled from the spec: `Expr::into_f32` (§4.1). -/
def Expr.into_f32 : Expr → Option Dec
  | .number n => some n
  | _ => none

/-- Modelled from the spec: `Expr::into_display` (§4.1), keyword vocabulary of
bevy `ui::Display`. -/
def Expr.into_display : Expr → Option Display
  | .ident "flex" => some .flex
  | .ident "grid" => some .grid
  | .ident "none" => some .none
  | _ => none

/-- Modelled from the spec: `Expr::into_length` (§4.1) — length including the
keyword `auto`; a bare number defaults to pixel units. -/
def Expr.into_length : Expr → Option Val
  | .length v => some v
  | .number n => some (.px n)
  | .ident "auto" => some .auto
  | _ => none

/-- Modelled from the spec: `Expr::into_uirect` (§4.1) — 4-sided rect
conversion. -/
def Expr.into_uirect : Expr → Option UiRect
  | .rect r => some r
  | .length v => some ⟨v, v, v, v⟩
  | .number n => some ⟨.px n, .px n, .px n, .px n⟩
  | _ => none

/-- Modelled from the spec: enum conversions of the alignment/justification
family and the other keyword enums (§4.1); vocabularies follow the
string-parser vocabularies of `style_attr.rs`. -/
def Expr.into_position : Expr → Option PositionType
  | .ident "absolute" => some .absolute
  | .ident "relative" => some .relative
  | _ => none

def Expr.into_overflow_axis : Expr → Option OverflowAxis
  | .ident "clip" => some .clip
  | .ident "visible" => some .visible
  | _ => none

def Expr.into_direction : Expr → Option Direction
  | .ident "inherit" => some .inherit
  | .ident "ltr" => some .leftToRight
  | .ident "rtl" => some .rightToLeft
  | _ => none

def Expr.into_flex_direction : Expr → Option FlexDirection
  | .ident "row" => some .row
  | .ident "column" => some .column
  | .ident "row-reverse" => some .rowReverse
  | .ident "column-reverse" => some .columnReverse
  | _ => none

def Expr.into_flex_wrap : Expr → Option FlexWrap
  | .ident "nowrap" => some .noWrap
  | .ident "wrap" => some .wrap
  | .ident "wrap-reverse" => some .wrapReverse
  | _ => none

def Expr.into_align_items : Expr → Option AlignItems
  | .ident "default" => some .default
  | .ident "start" => some .start
  | .ident "center" => some .center
  | .ident "stretch" => some .stretch
  | _ => none

def Expr.into_align_self : Expr → Option AlignSelf
  | .ident "auto" => some .auto
  | .ident "start" => some .start
  | .ident "center" => some .center
  | .ident "stretch" => some .stretch
  | _ => none

def Expr.into_align_content : Expr → Option AlignContent
  | .ident "default" => some .default
  | .ident "start" => some .start
  | .ident "center" => some .center
  | .ident "stretch" => some .stretch
  | _ => none

def Expr.into_justify_items : Expr → Option JustifyItems
  | .ident "default" => some .default
  | .ident "start" => some .start
  | .ident "center" => some .center
  | .ident "stretch" => some .stretch
  | _ => none

def Expr.into_justify_self : Expr → Option JustifySelf
  | .ident "auto" => some .auto
  | .ident "start" => some .start
  | .ident "center" => some .center
  | .ident "stretch" => some .stretch
  | _ => none

def Expr.into_justify_content : Expr → Option JustifyContent
  | .ident "default" => some .default
  | .ident "start" => some .start
  | .ident "center" => some .center
  | .ident "space-between" => some .spaceBetween
  | _ => none

/-- Modelled from the spec: `TypedExpr<T>::eval` (§3) — the tag-checked
conversion, surfacing a typed error on mismatch.  One helper turns any of the
`into_*` conversions into the `Result` shape of `eval`. -/
def evalWith {α : Type} (conv : Expr → Option α) (e : Expr) : Except EvalError α :=
  match conv e with
  | some a => .ok a
  | none => .error .typeMismatch

/-- Outcome of a fallible Rust computation: distinguishes a returned `Ok`, a
returned `Err`, and a panic (`unwrap`/`expect`/`panic!`). -/
inductive RustOutcome (ε α : Type) where
  | ok (a : α)
  | err (e : ε)
  | panicked
deriving DecidableEq

/-- The per-attribute body of `ElementStyle::apply_attrs_to`
(`element_style.rs` lines 152-408): each arm overwrites its field(s) when the
wrapped expression evaluates, except `BackgroundImage`, which writes
unconditionally. -/
def ElementStyleAttr.applyAttr (a : ElementStyleAttr) (computed : ComputedStyle) : ComputedStyle :=
  match a with
  | .backgroundImage image => { computed with image := image }
  | .backgroundColor e =>
      match evalWith Expr.into_color e with
      | .ok c => { computed with background_color := c }
      | .error _ => computed
  | .borderColor e =>
      match evalWith Expr.into_color e with
      | .ok c => { computed with border_color := c }
      | .error _ => computed
  | .color e =>
      match evalWith Expr.into_color e with
      | .ok c => { computed with color := c }
      | .error _ => computed
  | .zIndex e =>
      match evalWith Expr.into_i32 e with
      | .ok v => { computed with z_index := some v }
      | .error _ => computed
  | .display e =>
      match evalWith Expr.into_display e with
      | .ok d => { computed with style.display := d }
      | .error _ => computed
  | .position e =>
      match evalWith Expr.into_position e with
      | .ok p => { computed with style.position_type := p }
      | .error _ => computed
  | .overflowX e =>
      match evalWith Expr.into_overflow_axis e with
      | .ok ov => { computed with style.overflow.x := ov }
      | .error _ => computed
  | .overflowY e =>
      match evalWith Expr.into_overflow_axis e with
      | .ok ov => { computed with style.overflow.y := ov }
      | .error _ => computed
  | .overflow e =>
      match evalWith Expr.into_overflow_axis e with
      | .ok ov => { computed with style.overflow.x := ov, style.overflow.y := ov }
      | .error _ => computed
  | .direction e =>
      match evalWith Expr.into_direction e with
      | .ok d => { computed with style.direction := d }
      | .error _ => computed
  | .left e =>
      match evalWith Expr.into_length e with
      | .ok v => { computed with style.left := v }
      | .error _ => computed
  | .right e =>
      match evalWith Expr.into_length e with
      | .ok v => { computed with style.right := v }
      | .error _ => computed
  | .top e =>
      match evalWith Expr.into_length e with
      | .ok v => { computed with style.top := v }
      | .error _ => computed
  | .bottom e =>
      match evalWith Expr.into_length e with
      | .ok v => { computed with style.bottom := v }
      | .error _ => computed
  | .width e =>
      match evalWith Expr.into_length e with
      | .ok v => { computed with style.width := v }
      | .error _ => computed
  | .height e =>
      match evalWith Expr.into_length e with
      | .ok v => { computed with style.height := v }
      | .error _ => computed
  | .minWidth e =>
      match evalWith Expr.into_length e with
      | .ok v => { computed with style.min_width := v }
      | .error _ => computed
  | .minHeight e =>
      match evalWith Expr.into_length e with
      | .ok v => { computed with style.min_height := v }
      | .error _ => computed
  | .maxWidth e =>
      match evalWith Expr.into_length e with
      | .ok v => { computed with style.max_width := v }
      | .error _ => computed
  | .maxHeight e =>
      match evalWith Expr.into_length e with
      | .ok v => { computed with style.max_height := v }
      | .error _ => computed
  | .margin e =>
      match evalWith Expr.into_uirect e with
      | .ok r => { computed with style.margin := r }
      | .error _ => computed
  | .marginLeft e =>
      match evalWith Expr.into_length e with
      | .ok v => { computed with style.margin.left := v }
      | .error _ => computed
  | .marginRight e =>
      match evalWith Expr.into_length e with
      | .ok v => { computed with style.margin.right := v }
      | .error _ => computed
  | .marginTop e =>
      match evalWith Expr.into_length e with
      | .ok v => { computed with style.margin.top := v }
      | .error _ => computed
  | .marginBottom e =>
      match evalWith Expr.into_length e with
      | .ok v => { computed with style.margin.bottom := v }
      | .error _ => computed
  | .padding e =>
      match evalWith Expr.into_uirect e with
      | .ok r => { computed with style.padding := r }
      | .error _ => computed
  | .paddingLeft e =>
      match evalWith Expr.into_length e with
      | .ok v => { computed with style.padding.left := v }
      | .error _ => computed
  | .paddingRight e =>
      match evalWith Expr.into_length e with
      | .ok v => { computed with style.padding.right := v }
      | .error _ => computed
  | .paddingTop e =>
      match evalWith Expr.into_length e with
      | .ok v => { computed with style.padding.top := v }
      | .error _ => computed
  | .paddingBottom e =>
      match evalWith Expr.into_length e with
      | .ok v => { computed with style.padding.bottom := v }
      | .error _ => computed
  | .border e =>
      match evalWith Expr.into_uirect e with
      | .ok r => { computed with style.border := r }
      | .error _ => computed
  | .borderLeft e =>
      match evalWith Expr.into_length e with
      | .ok v => { computed with style.border.left := v }
      | .error _ => computed
  | .borderRight e =>
      match evalWith Expr.into_length e with
      | .ok v => { computed with style.border.right := v }
      | .error _ => computed
  | .borderTop e =>
      match evalWith Expr.into_length e with
      | .ok v => { computed with style.border.top := v }
      | .error _ => computed
  | .borderBottom e =>
      match evalWith Expr.into_length e with
      | .ok v => { computed with style.border.bottom := v }
      | .error _ => computed
  | .flexDirection e =>
      match evalWith Expr.into_flex_direction e with
      | .ok d => { computed with style.flex_direction := d }
      | .error _ => computed
  | .flexWrap e =>
      match evalWith Expr.into_flex_wrap e with
      | .ok w => { computed with style.flex_wrap := w }
      | .error _ => computed
  | .flexGrow e =>
      match evalWith Expr.into_f32 e with
      | .ok v => { computed with style.flex_grow := v }
      | .error _ => computed
  | .flexShrink e =>
      match evalWith Expr.into_f32 e with
      | .ok v => { computed with style.flex_shrink := v }
      | .error _ => computed
  | .flexBasis e =>
      match evalWith Expr.into_length e with
      | .ok v => { computed with style.flex_basis := v }
      | .error _ => computed
  | .columnGap e =>
      match evalWith Expr.into_length e with
      | .ok v => { computed with style.column_gap := v }
      | .error _ => computed
  | .rowGap e =>
      match evalWith Expr.into_length e with
      | .ok v => { computed with style.row_gap := v }
      | .error _ => computed
  | .gap e =>
      match evalWith Expr.into_length e with
      | .ok v => { computed with style.column_gap := v, style.row_gap := v }
      | .error _ => computed
  | .alignItems e =>
      match evalWith Expr.into_align_items e with
      | .ok v => { computed with style.align_items := v }
      | .error _ => computed
  | .alignSelf e =>
      match evalWith Expr.into_align_self e with
      | .ok v => { computed with style.align_self := v }
      | .error _ => computed
  | .alignContent e =>
      match evalWith Expr.into_align_content e with
      | .ok v => { computed with style.align_content := v }
      | .error _ => computed
  | .justifyItems e =>
      match evalWith Expr.into_justify_items e with
      | .ok v => { computed with style.justify_items := v }
      | .error _ => computed
  | .justifySelf e =>
      match evalWith Expr.into_justify_self e with
      | .ok v => { computed with style.justify_self := v }
      | .error _ => computed
  | .justifyContent e =>
      match evalWith Expr.into_justify_content e with
      | .ok v => { computed with style.justify_content := v }
      | .error _ => computed

/-- `ElementStyle` from `element_style.rs`: an ordered flat list of attributes. -/
structure ElementStyle where
  attrs : List ElementStyleAttr

/-- `ElementStyle::apply_attrs_to`: iterate the sequence once, forward order,
applying every attribute. -/
def ElementStyle.apply_attrs_to (attrs : List ElementStyleAttr)
    (computed : ComputedStyle) : ComputedStyle :=
  attrs.foldl (fun c a => a.applyAttr c) computed

/-- `ElementStyle::apply_to`. -/
def ElementStyle.apply_to (s : ElementStyle) (computed : ComputedStyle) : ComputedStyle :=
  ElementStyle.apply_attrs_to s.attrs computed

/-- Whether the evaluation guard of an attribute arm succeeds: `true` exactly
when the arm's `if let Ok(..) = expr.eval()` (or, for `BackgroundImage`, the
unconditional arm) writes.  One entry per variant, mirroring the conversion
used by `applyAttr`. -/
def ElementStyleAttr.evalOk : ElementStyleAttr → Bool
  | .backgroundImage _ => true
  | .backgroundColor e => (Expr.into_color e).isSome
  | .borderColor e => (Expr.into_color e).isSome
  | .color e => (Expr.into_color e).isSome
  | .zIndex e => (Expr.into_i32 e).isSome
  | .display e => (Expr.into_display e).isSome
  | .position e => (Expr.into_position e).isSome
  | .overflow e => (Expr.into_overflow_axis e).isSome
  | .overflowX e => (Expr.into_overflow_axis e).isSome
  | .overflowY e => (Expr.into_overflow_axis e).isSome
  | .direction e => (Expr.into_direction e).isSome
  | .left e => (Expr.into_length e).isSome
  | .right e => (Expr.into_length e).isSome
  | .top e => (Expr.into_length e).isSome
  | .bottom e => (Expr.into_length e).isSome
  | .width e => (Expr.into_length e).isSome
  | .height e => (Expr.into_length e).isSome
  | .minWidth e => (Expr.into_length e).isSome
  | .minHeight e => (Expr.into_length e).isSome
  | .maxWidth e => (Expr.into_length e).isSome
  | .maxHeight e => (Expr.into_length e).isSome
  | .margin e => (Expr.into_uirect e).isSome
  | .marginLeft e => (Expr.into_length e).isSome
  | .marginRight e => (Expr.into_length e).isSome
  | .marginTop e => (Expr.into_length e).isSome
  | .marginBottom e => (Expr.into_length e).isSome
  | .padding e => (Expr.into_uirect e).isSome
  | .paddingLeft e => (Expr.into_length e).isSome
  | .paddingRight e => (Expr.into_length e).isSome
  | .paddingTop e => (Expr.into_length e).isSome
  | .paddingBottom e => (Expr.into_length e).isSome
  | .border e => (Expr.into_uirect e).isSome
  | .borderLeft e => (Expr.into_length e).isSome
  | .borderRight e => (Expr.into_length e).isSome
  | .borderTop e => (Expr.into_length e).isSome
  | .borderBottom e => (Expr.into_length e).isSome
  | .flexDirection e => (Expr.into_flex_direction e).isSome
  | .flexWrap e => (Expr.into_flex_wrap e).isSome
  | .flexGrow e => (Expr.into_f32 e).isSome
  | .flexShrink e => (Expr.into_f32 e).isSome
  | .flexBasis e => (Expr.into_length e).isSome
  | .rowGap e => (Expr.into_length e).isSome
  | .columnGap e => (Expr.into_length e).isSome
  | .gap e => (Expr.into_length e).isSome
  | .alignItems e => (Expr.into_align_items e).isSome
  | .alignSelf e => (Expr.into_align_self e).isSome
  | .alignContent e => (Expr.into_align_content e).isSome
  | .justifyItems e => (Expr.into_justify_items e).isSome
  | .justifySelf e => (Expr.into_justify_self e).isSome
  | .justifyContent e => (Expr.into_justify_content e).isSome

/-- One name per scalar slot of `ComputedStyle`, at the granularity at which
the merge engine writes (each rect side, each overflow axis, each grid
placement component is its own slot). -/
inductive Field where
  | image | backgroundColor | borderColor | textColor | zIndex | lineBreak
  | display | positionType | overflowX | overflowY | direction
  | left | right | top | bottom
  | width | height | minWidth | minHeight | maxWidth | maxHeight
  | marginLeft | marginRight | marginTop | marginBottom
  | paddingLeft | paddingRight | paddingTop | paddingBottom
  | borderLeft | borderRight | borderTop | borderBottom
  | flexDirection | flexWrap | flexGrow | flexShrink | flexBasis
  | rowGap | columnGap
  | alignItems | alignSelf | alignContent
  | justifyItems | justifySelf | justifyContent
  | gridAutoFlow
  | gridRowStart | gridRowSpan | gridRowEnd
  | gridColumnStart | gridColumnSpan | gridColumnEnd
deriving DecidableEq

/-- Heterogeneous value of one `ComputedStyle` slot. -/
inductive FieldVal where
  | val (v : Val)
  | scalar (q : Dec)
  | optColor (c : Option Color)
  | optStr (s : Option String)
  | optInt (i : Option Int)
  | optBreak (b : Option BreakLineOn)
  | disp (d : Display)
  | pos (p : PositionType)
  | ovAxis (o : OverflowAxis)
  | dir (d : Direction)
  | fdir (d : FlexDirection)
  | fwrap (w : FlexWrap)
  | gflow (g : GridAutoFlow)
  | aIt (a : AlignItems)
  | aSelf (a : AlignSelf)
  | aCont (a : AlignContent)
  | jIt (j : JustifyItems)
  | jSelf (j : JustifySelf)
  | jCont (j : JustifyContent)
deriving DecidableEq

/-- Read one slot of a `ComputedStyle`. -/
def ComputedStyle.getField (c : ComputedStyle) : Field → FieldVal
  | .image => .optStr c.image
  | .backgroundColor => .optColor c.background_color
  | .borderColor => .optColor c.border_color
  | .textColor => .optColor c.color
  | .zIndex => .optInt c.z_index
  | .lineBreak => .optBreak c.line_break
  | .display => .disp c.style.display
  | .positionType => .pos c.style.position_type
  | .overflowX => .ovAxis c.style.overflow.x
  | .overflowY => .ovAxis c.style.overflow.y
  | .direction => .dir c.style.direction
  | .left => .val c.style.left
  | .right => .val c.style.right
  | .top => .val c.style.top
  | .bottom => .val c.style.bottom
  | .width => .val c.style.width
  | .height => .val c.style.height
  | .minWidth => .val c.style.min_width
  | .minHeight => .val c.style.min_height
  | .maxWidth => .val c.style.max_width
  | .maxHeight => .val c.style.max_height
  | .marginLeft => .val c.style.margin.left
  | .marginRight => .val c.style.margin.right
  | .marginTop => .val c.style.margin.top
  | .marginBottom => .val c.style.margin.bottom
  | .paddingLeft => .val c.style.padding.left
  | .paddingRight => .val c.style.padding.right
  | .paddingTop => .val c.style.padding.top
  | .paddingBottom => .val c.style.padding.bottom
  | .borderLeft => .val c.style.border.left
  | .borderRight => .val c.style.border.right
  | .borderTop => .val c.style.border.top
  | .borderBottom => .val c.style.border.bottom
  | .flexDirection => .fdir c.style.flex_direction
  | .flexWrap => .fwrap c.style.flex_wrap
  | .flexGrow => .scalar c.style.flex_grow
  | .flexShrink => .scalar c.style.flex_shrink
  | .flexBasis => .val c.style.flex_basis
  | .rowGap => .val c.style.row_gap
  | .columnGap => .val c.style.column_gap
  | .alignItems => .aIt c.style.align_items
  | .alignSelf => .aSelf c.style.align_self
  | .alignContent => .aCont c.style.align_content
  | .justifyItems => .jIt c.style.justify_items
  | .justifySelf => .jSelf c.style.justify_self
  | .justifyContent => .jCont c.style.justify_content
  | .gridAutoFlow => .gflow c.style.grid_auto_flow
  | .gridRowStart => .optInt c.style.grid_row.start
  | .gridRowSpan => .optInt c.style.grid_row.span
  | .gridRowEnd => .optInt c.style.grid_row.stop
  | .gridColumnStart => .optInt c.style.grid_column.start
  | .gridColumnSpan => .optInt c.style.grid_column.span
  | .gridColumnEnd => .optInt c.style.grid_column.stop

/-- Two computed styles agree on slot `f`. -/
def fieldEq (f : Field) (c₁ c₂ : ComputedStyle) : Prop :=
  c₁.getField f = c₂.getField f

instance (f : Field) (c₁ c₂ : ComputedStyle) : Decidable (fieldEq f c₁ c₂) := by
  unfold fieldEq; infer_instance

/-- The `ComputedStyle` slots named by one attribute — which field(s) its
`apply_attrs_to` arm writes. -/
def ElementStyleAttr.touched : ElementStyleAttr → List Field
  | .backgroundImage _ => [.image]
  | .backgroundColor _ => [.backgroundColor]
  | .borderColor _ => [.borderColor]
  | .color _ => [.textColor]
  | .zIndex _ => [.zIndex]
  | .display _ => [.display]
  | .position _ => [.positionType]
  | .overflow _ => [.overflowX, .overflowY]
  | .overflowX _ => [.overflowX]
  | .overflowY _ => [.overflowY]
  | .direction _ => [.direction]
  | .left _ => [.left]
  | .right _ => [.right]
  | .top _ => [.top]
  | .bottom _ => [.bottom]
  | .width _ => [.width]
  | .height _ => [.height]
  | .minWidth _ => [.minWidth]
  | .minHeight _ => [.minHeight]
  | .maxWidth _ => [.maxWidth]
  | .maxHeight _ => [.maxHeight]
  | .margin _ => [.marginLeft, .marginRight, .marginTop, .marginBottom]
  | .marginLeft _ => [.marginLeft]
  | .marginRight _ => [.marginRight]
  | .marginTop _ => [.marginTop]
  | .marginBottom _ => [.marginBottom]
  | .padding _ => [.paddingLeft, .paddingRight, .paddingTop, .paddingBottom]
  | .paddingLeft _ => [.paddingLeft]
  | .paddingRight _ => [.paddingRight]
  | .paddingTop _ => [.paddingTop]
  | .paddingBottom _ => [.paddingBottom]
  | .border _ => [.borderLeft, .borderRight, .borderTop, .borderBottom]
  | .borderLeft _ => [.borderLeft]
  | .borderRight _ => [.borderRight]
  | .borderTop _ => [.borderTop]
  | .borderBottom _ => [.borderBottom]
  | .flexDirection _ => [.flexDirection]
  | .flexWrap _ => [.flexWrap]
  | .flexGrow _ => [.flexGrow]
  | .flexShrink _ => [.flexShrink]
  | .flexBasis _ => [.flexBasis]
  | .rowGap _ => [.rowGap]
  | .columnGap _ => [.columnGap]
  | .gap _ => [.rowGap, .columnGap]
  | .alignItems _ => [.alignItems]
  | .alignSelf _ => [.alignSelf]
  | .alignContent _ => [.alignContent]
  | .justifyItems _ => [.justifyItems]
  | .justifySelf _ => [.justifySelf]
  | .justifyContent _ => [.justifyContent]

/-- `StyleAttr` from `style_attr.rs` (lines 13-92): the string-parser path's
attribute enum.  Enumerated properties carry resolved literals; the rest carry
an `Expr`.  `i16`/`u16` payloads are modelled as `Int` (the parsers range-check
them). -/
inductive StyleAttr where
  | backgroundColor (e : Expr)
  | borderColor (e : Expr)
  | color (e : Expr)
  | zIndex (e : Expr)
  | display (e : Expr)
  | position (p : PositionType)
  | overflow (o : OverflowAxis)
  | overflowX (o : OverflowAxis)
  | overflowY (o : OverflowAxis)
  | direction (d : Direction)
  | left (e : Expr)
  | right (e : Expr)
  | top (e : Expr)
  | bottom (e : Expr)
  | width (e : Expr)
  | height (e : Expr)
  | minWidth (e : Expr)
  | minHeight (e : Expr)
  | maxWidth (e : Expr)
  | maxHeight (e : Expr)
  | alignItems (a : AlignItems)
  | justifyItems (j : JustifyItems)
  | alignSelf (a : AlignSelf)
  | justifySelf (j : JustifySelf)
  | alignContent (a : AlignContent)
  | justifyContent (j : JustifyContent)
  | margin (e : Expr)
  | marginLeft (e : Expr)
  | marginRight (e : Expr)
  | marginTop (e : Expr)
  | marginBottom (e : Expr)
  | padding (e : Expr)
  | paddingLeft (e : Expr)
  | paddingRight (e : Expr)
  | paddingTop (e : Expr)
  | paddingBottom (e : Expr)
  | border (e : Expr)
  | borderLeft (e : Expr)
  | borderRight (e : Expr)
  | borderTop (e : Expr)
  | borderBottom (e : Expr)
  | flexDirection (d : FlexDirection)
  | flexWrap (w : FlexWrap)
  | flexGrow (e : Expr)
  | flexShrink (e : Expr)
  | flexBasis (v : Val)
  | rowGap (v : Val)
  | columnGap (v : Val)
  | gap (v : Val)
  | gridAutoFlow (g : GridAutoFlow)
  | gridRow (g : GridPlacement)
  | gridRowStart (i : Int)
  | gridRowSpan (i : Int)
  | gridRowEnd (i : Int)
  | gridColumn (g : GridPlacement)
  | gridColumnStart (i : Int)
  | gridColumnSpan (i : Int)
  | gridColumnEnd (i : Int)
  | lineBreak (b : BreakLineOn)

/-- `StyleAttr::apply` (`style_attr.rs` lines 96-353): expression-carrying
arms write when the `into_*` conversion yields `Some`; literal arms write
unconditionally; `Overflow` and `Gap` expand to two field writes. -/
def StyleAttr.apply (a : StyleAttr) (computed : ComputedStyle) : ComputedStyle :=
  match a with
  | .backgroundColor val =>
      match val.into_color with
      | some c => { computed with background_color := c }
      | none => computed
  | .borderColor val =>
      match val.into_color with
      | some c => { computed with border_color := c }
      | none => computed
  | .color val =>
      match val.into_color with
      | some c => { computed with color := c }
      | none => computed
  | .zIndex val =>
      match val.into_i32 with
      | some z => { computed with z_index := some z }
      | none => computed
  | .display val =>
      match val.into_display with
      | some d => { computed with style.display := d }
      | none => computed
  | .position val => { computed with style.position_type := val }
  | .overflow val => { computed with style.overflow.x := val, style.overflow.y := val }
  | .overflowX val => { computed with style.overflow.x := val }
  | .overflowY val => { computed with style.overflow.y := val }
  | .direction val => { computed with style.direction := val }
  | .left val =>
      match val.into_length with
      | some l => { computed with style.left := l }
      | none => computed
  | .right val =>
      match val.into_length with
      | some l => { computed with style.right := l }
      | none => computed
  | .top val =>
      match val.into_length with
      | some l => { computed with style.top := l }
      | none => computed
  | .bottom val =>
      match val.into_length with
      | some l => { computed with style.bottom := l }
      | none => computed
  | .width val =>
      match val.into_length with
      | some l => { computed with style.width := l }
      | none => computed
  | .height val =>
      match val.into_length with
      | some l => { computed with style.height := l }
      | none => computed
  | .minWidth val =>
      match val.into_length with
      | some l => { computed with style.min_width := l }
      | none => computed
  | .minHeight val =>
      match val.into_length with
      | some l => { computed with style.min_height := l }
      | none => computed
  | .maxWidth val =>
      match val.into_length with
      | some l => { computed with style.max_width := l }
      | none => computed
  | .maxHeight val =>
      match val.into_length with
      | some l => { computed with style.max_height := l }
      | none => computed
  | .alignItems val => { computed with style.align_items := val }
  | .justifyItems val => { computed with style.justify_items := val }
  | .alignSelf val => { computed with style.align_self := val }
  | .justifySelf val => { computed with style.justify_self := val }
  | .alignContent val => { computed with style.align_content := val }
  | .justifyContent val => { computed with style.justify_content := val }
  | .margin val =>
      match val.into_uirect with
      | some r => { computed with style.margin := r }
      | none => computed
  | .marginLeft val =>
      match val.into_length with
      | some l => { computed with style.margin.left := l }
      | none => computed
  | .marginRight val =>
      match val.into_length with
      | some l => { computed with style.margin.right := l }
      | none => computed
  | .marginTop val =>
      match val.into_length with
      | some l => { computed with style.margin.top := l }
      | none => computed
  | .marginBottom val =>
      match val.into_length with
      | some l => { computed with style.margin.bottom := l }
      | none => computed
  | .padding val =>
      match val.into_uirect with
      | some r => { computed with style.padding := r }
      | none => computed
  | .paddingLeft val =>
      match val.into_length with
      | some l => { computed with style.padding.left := l }
      | none => computed
  | .paddingRight val =>
      match val.into_length with
      | some l => { computed with style.padding.right := l }
      | none => computed
  | .paddingTop val =>
      match val.into_length with
      | some l => { computed with style.padding.top := l }
      | none => computed
  | .paddingBottom val =>
      match val.into_length with
      | some l => { computed with style.padding.bottom := l }
      | none => computed
  | .border val =>
      match val.into_uirect with
      | some r => { computed with style.border := r }
      | none => computed
  | .borderLeft val =>
      match val.into_length with
      | some l => { computed with style.border.left := l }
      | none => computed
  | .borderRight val =>
      match val.into_length with
      | some l => { computed with style.border.right := l }
      | none => computed
  | .borderTop val =>
      match val.into_length with
      | some l => { computed with style.border.top := l }
      | none => computed
  | .borderBottom val =>
      match val.into_length with
      | some l => { computed with style.border.bottom := l }
      | none => computed
  | .flexDirection val => { computed with style.flex_direction := val }
  | .flexWrap val => { computed with style.flex_wrap := val }
  | .flexGrow val =>
      match val.into_f32 with
      | some flex => { computed with style.flex_grow := flex }
      | none => computed
  | .flexShrink val =>
      match val.into_f32 with
      | some flex => { computed with style.flex_shrink := flex }
      | none => computed
  | .flexBasis val => { computed with style.flex_basis := val }
  | .rowGap val => { computed with style.row_gap := val }
  | .columnGap val => { computed with style.column_gap := val }
  | .gap val => { computed with style.row_gap := val, style.column_gap := val }
  | .gridAutoFlow val => { computed with style.grid_auto_flow := val }
  | .gridRow val => { computed with style.grid_row := val }
  | .gridRowStart val => { computed with style.grid_row := computed.style.grid_row.setStart val }
  | .gridRowSpan val => { computed with style.grid_row := computed.style.grid_row.setSpan val }
  | .gridRowEnd val => { computed with style.grid_row := computed.style.grid_row.setEnd val }
  | .gridColumn val => { computed with style.grid_column := val }
  | .gridColumnStart val =>
      { computed with style.grid_column := computed.style.grid_column.setStart val }
  | .gridColumnSpan val =>
      { computed with style.grid_column := computed.style.grid_column.setSpan val }
  | .gridColumnEnd val =>
      { computed with style.grid_column := computed.style.grid_column.setEnd val }
  | .lineBreak val => { computed with line_break := some val }

/-- The per-member body of `ElementStyle::from_ast` (`element_style.rs` lines
418-497): one match arm per recognized property key.  `lc` models
`load_context.load` (a handle is identified with the loaded path string).
`background_image` resolves eagerly: an asset path loads a handle, `null` or
the identifier `none` yield the explicit no-image attribute, and any other
value hits the source's `panic!`.  An unrecognized key is the source's
`return Err(anyhow!("Invalid property: ..."))`, whose message is modelled as
`"Invalid property: " ++ key`. -/
def fromAstAttr (lc : String → String) (key : String) (value : Expr) :
    RustOutcome String ElementStyleAttr :=
  match key with
  | "background_image" =>
      match value with
      | .assetPath path => .ok (.backgroundImage (some (lc path)))
      | .null => .ok (.backgroundImage none)
      | .ident id => if id = "none" then .ok (.backgroundImage none) else .panicked
      | _ => .panicked
  | "background_color" => .ok (.backgroundColor value)
  | "border_color" => .ok (.borderColor value)
  | "color" => .ok (.color value)
  | "z_index" => .ok (.zIndex value)
  | "display" => .ok (.display value)
  | "position" => .ok (.position value)
  | "overflow_x" => .ok (.overflowX value)
  | "overflow_y" => .ok (.overflowY value)
  | "overflow" => .ok (.overflow value)
  | "direction" => .ok (.direction value)
  | "left" => .ok (.left value)
  | "right" => .ok (.right value)
  | "top" => .ok (.top value)
  | "bottom" => .ok (.bottom value)
  | "width" => .ok (.width value)
  | "height" => .ok (.height value)
  | "min_width" => .ok (.minWidth value)
  | "min_height" => .ok (.minHeight value)
  | "max_width" => .ok (.maxWidth value)
  | "max_height" => .ok (.maxHeight value)
  | "margin" => .ok (.margin value)
  | "margin_left" => .ok (.marginLeft value)
  | "margin_right" => .ok (.marginRight value)
  | "margin_top" => .ok (.marginTop value)
  | "margin_bottom" => .ok (.marginBottom value)
  | "padding" => .ok (.padding value)
  | "padding_left" => .ok (.paddingLeft value)
  | "padding_right" => .ok (.paddingRight value)
  | "padding_top" => .ok (.paddingTop value)
  | "padding_bottom" => .ok (.paddingBottom value)
  | "border" => .ok (.border value)
  | "border_left" => .ok (.borderLeft value)
  | "border_right" => .ok (.borderRight value)
  | "border_top" => .ok (.borderTop value)
  | "border_bottom" => .ok (.borderBottom value)
  | "flex_direction" => .ok (.flexDirection value)
  | "flex_wrap" => .ok (.flexWrap value)
  | "flex_grow" => .ok (.flexGrow value)
  | "flex_shrink" => .ok (.flexShrink value)
  | "flex_basis" => .ok (.flexBasis value)
  | "row_gap" => .ok (.rowGap value)
  | "column_gap" => .ok (.columnGap value)
  | "gap" => .ok (.gap value)
  | "align_items" => .ok (.alignItems value)
  | "align_self" => .ok (.alignSelf value)
  | "align_content" => .ok (.alignContent value)
  | "justify_items" => .ok (.justifyItems value)
  | "justify_self" => .ok (.justifySelf value)
  | "justify_content" => .ok (.justifyContent value)
  | _ => .err ("Invalid property: " ++ key)

/-- The recognized key set of `ElementStyle::from_ast`. -/
def structuredKeys : List String :=
  ["background_image", "background_color", "border_color", "color", "z_index",
   "display", "position", "overflow_x", "overflow_y", "overflow", "direction",
   "left", "right", "top", "bottom",
   "width", "height", "min_width", "min_height", "max_width", "max_height",
   "margin", "margin_left", "margin_right", "margin_top", "margin_bottom",
   "padding", "padding_left", "padding_right", "padding_top", "padding_bottom",
   "border", "border_left", "border_right", "border_top", "border_bottom",
   "flex_direction", "flex_wrap", "flex_grow", "flex_shrink", "flex_basis",
   "row_gap", "column_gap", "gap",
   "align_items", "align_self", "align_content",
   "justify_items", "justify_self", "justify_content"]

/-- `ElementStyle::from_ast` (`element_style.rs` lines 411-500): fold the
member iteration sequence, pushing one attribute per member, aborting on the
first invalid key.  The input list is the iteration sequence of the `members`
hash map; the source wraps the resulting attribute list in
`Expr::Style(Arc::new(..))`, and the embedding returns the list itself. -/
def ElementStyle.from_ast (lc : String → String) :
    List (String × Expr) → RustOutcome String (List ElementStyleAttr)
  | [] => .ok []
  | (key, value) :: rest =>
      match fromAstAttr lc key value with
      | .ok a =>
          match ElementStyle.from_ast lc rest with
          | .ok tail_attrs => .ok (a :: tail_attrs)
          | .err e => .err e
          | .panicked => .panicked
      | .err e => .err e
      | .panicked => .panicked

/-- `GuiseError`: the two error variants used by `style_attr.rs` (the error
enum lives in the crate root, outside the source set; its used variants are
determined by the call sites). -/
inductive GuiseError where
  | unknownAttributeValue (s : String)
  | invalidAttributeValue (s : String)
deriving DecidableEq

def RustOutcome.map {ε α β : Type} (f : α → β) : RustOutcome ε α → RustOutcome ε β
  | .ok a => .ok (f a)
  | .err e => .err e
  | .panicked => .panicked

/-- Numeric value of a digit string. -/
def digitsVal (cs : List Char) : ℕ :=
  cs.foldl (fun a c => 10 * a + (c.toNat - 48)) 0

/-- Rust `f32::from_str` on the decimal forms reachable from the numeric
captures of `style_attr.rs` (strings over digits, `-`, `.`): optional leading
minus, then `digits`, `digits.digits*` or `.digits`; anything else (a bare
sign or dot, a second dot, an interior sign) fails.  The value is the exact
decimal; f32 rounding is abstracted away (no claim depends on it). -/
def rustParseF32 (s : String) : Option Dec :=
  let signBody : Int × List Char :=
    match s.data with
    | '-' :: rest => (-1, rest)
    | cs => (1, cs)
  let sign := signBody.1
  let body := signBody.2
  let intPart := body.takeWhile Char.isDigit
  match body.dropWhile Char.isDigit with
  | [] =>
      if intPart = [] then none
      else some (Dec.norm (sign * (digitsVal intPart : Int)) 0)
  | '.' :: frac =>
      if frac.all Char.isDigit ∧ (intPart ≠ [] ∨ frac ≠ []) then
        some (Dec.norm
          (sign * ((digitsVal intPart : Int) * (10 : Int) ^ frac.length + (digitsVal frac : Int)))
          frac.length)
      else none
  | _ => none

/-- Rust `i16::from_str`: optional sign, digits only, range-checked. -/
def rustParseI16 (s : String) : Option Int :=
  let signBody : Int × List Char :=
    match s.data with
    | '-' :: rest => (-1, rest)
    | '+' :: rest => (1, rest)
    | cs => (1, cs)
  let body := signBody.2
  if body ≠ [] ∧ body.all Char.isDigit then
    let v : Int := signBody.1 * (digitsVal body : Int)
    if -32768 ≤ v ∧ v ≤ 32767 then some v else none
  else none

/-- Rust `u16::from_str`: optional `+`, digits only, range-checked. -/
def rustParseU16 (s : String) : Option Int :=
  let body : List Char :=
    match s.data with
    | '+' :: rest => rest
    | cs => cs
  if body ≠ [] ∧ body.all Char.isDigit then
    let v : Int := digitsVal body
    if v ≤ 65535 then some v else none
  else none

/-- Rust `str::split_whitespace`: maximal non-whitespace runs. -/
def splitWsAux : List Char → List Char → List String
  | [], acc => if acc = [] then [] else [String.mk acc.reverse]
  | c :: rest, acc =>
      if c.isWhitespace then
        if acc = [] then splitWsAux rest []
        else String.mk acc.reverse :: splitWsAux rest []
      else splitWsAux rest (c :: acc)

def split_whitespace (s : String) : List String :=
  splitWsAux s.data []

/-- Character class of the numeric capture of `parse_val`'s regex
`^([\-\d\.]+)(px|vw|vh|vmin|vmax|%)?$`. -/
def isValNumChar (c : Char) : Bool :=
  c = '-' || c.isDigit || c = '.'

/-- `StyleAttr::parse_val` (`style_attr.rs` lines 911-938).  The regex's
capture decomposition is unique because the numeric class `[\-\d\.]` and the
unit alphabet are disjoint: group 1 is the maximal leading run of numeric-class
characters and the remainder must be one of the unit suffixes (or empty,
defaulting to pixels).  On a regex match the source runs
`f32::from_str(&cap[1]).unwrap()`, which panics when the loose numeric class
accepted a malformed number. -/
def StyleAttr.parse_val (s : String) : RustOutcome GuiseError Val :=
  if s = "auto" then .ok .auto
  else
    let cs := s.data
    let num := cs.takeWhile isValNumChar
    let unitStr := String.mk (cs.dropWhile isValNumChar)
    if num = [] then .err (.invalidAttributeValue s)
    else if unitStr ∈ ["", "px", "vw", "vh", "vmin", "vmax", "%"] then
      match rustParseF32 (String.mk num) with
      | none => .panicked
      | some dist =>
          if unitStr = "" then .ok (.px dist)
          else if unitStr = "px" then .ok (.px dist)
          else if unitStr = "%" then .ok (.percent dist)
          else if unitStr = "vw" then .ok (.vw dist)
          else if unitStr = "vh" then .ok (.vh dist)
          else if unitStr = "vmin" then .ok (.vmin dist)
          else .ok (.vmax dist)
    else .err (.invalidAttributeValue s)

/-- `StyleAttr::parse_uirect` (`style_attr.rs` lines 943-978): 1-4
whitespace-separated length tokens, CSS order (top, right, bottom, left);
right defaults to top, bottom defaults to top, left defaults to right; a
fifth token is an error (reported on the whole string, after the first four
have been parsed, as in the source's iterator sequencing). -/
def StyleAttr.parse_uirect (s : String) : RustOutcome GuiseError UiRect :=
  let step (toks : List String) (dflt : Val) : RustOutcome GuiseError (Val × List String) :=
    match toks with
    | [] => .ok (dflt, [])
    | t :: ts =>
        match StyleAttr.parse_val t with
        | .ok v => .ok (v, ts)
        | .err e => .err e
        | .panicked => .panicked
  match split_whitespace s with
  | [] => .err (.invalidAttributeValue s)
  | t0 :: rest0 =>
      match StyleAttr.parse_val t0 with
      | .err e => .err e
      | .panicked => .panicked
      | .ok topv =>
          match step rest0 topv with
          | .err e => .err e
          | .panicked => .panicked
          | .ok (rightv, rest1) =>
              match step rest1 topv with
              | .err e => .err e
              | .panicked => .panicked
              | .ok (bottomv, rest2) =>
                  match step rest2 rightv with
                  | .err e => .err e
                  | .panicked => .panicked
                  | .ok (leftv, rest3) =>
                      if rest3 = [] then .ok (UiRect.new leftv rightv topv bottomv)
                      else .err (.invalidAttributeValue s)

/-- Character class of the grid-placement captures (`[\d\.]`). -/
def isGridChar (c : Char) : Bool :=
  c.isDigit || c = '.'

/-- `StyleAttr::parse_grid_placement` (`style_attr.rs` lines 888-908): form 1
is `^([\d\.]+)\s*/\s*([\d\.]+)$`, form 2 is
`^([\d\.]+)\s*/\s*span\s*([\d\.]+)$`; the capture decomposition is unique
because the capture class, whitespace, `/` and `span` are disjoint.  On a
match the source runs `i16::from_str(..).unwrap()` / `u16::from_str(..)
.unwrap()`, which panics when a capture holds a dot or an out-of-range
number. -/
def StyleAttr.parse_grid_placement (s : String) : RustOutcome GuiseError GridPlacement :=
  let cs := s.data
  let c1 := cs.takeWhile isGridChar
  let afterWs := (cs.dropWhile isGridChar).dropWhile (fun c => c.isWhitespace)
  match afterWs with
  | '/' :: tl =>
      let tl2 := tl.dropWhile (fun c => c.isWhitespace)
      if c1 = [] then .err (.invalidAttributeValue s)
      else if tl2 ≠ [] ∧ tl2.all isGridChar then
        match rustParseI16 (String.mk c1), rustParseI16 (String.mk tl2) with
        | some a, some b => .ok ((GridPlacement.default.setStart a).setEnd b)
        | _, _ => .panicked
      else
        match tl2 with
        | 's' :: 'p' :: 'a' :: 'n' :: tl3 =>
            let tl4 := tl3.dropWhile (fun c => c.isWhitespace)
            if tl4 ≠ [] ∧ tl4.all isGridChar then
              match rustParseI16 (String.mk c1), rustParseU16 (String.mk tl4) with
              | some a, some b => .ok ((GridPlacement.default.setStart a).setSpan b)
              | _, _ => .panicked
            else .err (.invalidAttributeValue s)
        | _ => .err (.invalidAttributeValue s)
  | _ => .err (.invalidAttributeValue s)

/-- `StyleAttr::parse_i16` (`style_attr.rs` lines 991-993): no panic —
failure is mapped to an invalid-value error. -/
def StyleAttr.parse_i16 (s : String) : RustOutcome GuiseError Int :=
  match rustParseI16 s with
  | some v => .ok v
  | none => .err (.invalidAttributeValue s)

/-- `StyleAttr::parse_u16` (`style_attr.rs` lines 996-998). -/
def StyleAttr.parse_u16 (s : String) : RustOutcome GuiseError Int :=
  match rustParseU16 s with
  | some v => .ok v
  | none => .err (.invalidAttributeValue s)

/-- `StyleAttr::parse` (`style_attr.rs` lines 356-573): XML attribute
name/value pair to `Some(StyleAttr)`; a recognized name with a bad value is an
error; an unrecognized name is `Ok(None)` (the source's final `_ => return
Ok(None)`).  Names are byte strings in the source (`b"position"` etc.),
modelled as `String`. -/
def StyleAttr.parse (name : String) (value : String) : RustOutcome GuiseError (Option StyleAttr) :=
  match name with
  | "position" =>
      match value with
      | "absolute" => .ok (some (.position .absolute))
      | "relative" => .ok (some (.position .relative))
      | _ => .err (.unknownAttributeValue value)
  | "overflow" =>
      match value with
      | "clip" => .ok (some (.overflow .clip))
      | "visible" => .ok (some (.overflow .visible))
      | _ => .err (.unknownAttributeValue value)
  | "overflow-x" =>
      match value with
      | "clip" => .ok (some (.overflowX .clip))
      | "visible" => .ok (some (.overflowX .visible))
      | _ => .err (.unknownAttributeValue value)
  | "overflow-y" =>
      match value with
      | "clip" => .ok (some (.overflowY .clip))
      | "visible" => .ok (some (.overflowY .visible))
      | _ => .err (.unknownAttributeValue value)
  | "direction" =>
      match value with
      | "inherit" => .ok (some (.direction .inherit))
      | "ltr" => .ok (some (.direction .leftToRight))
      | "rtl" => .ok (some (.direction .rightToLeft))
      | _ => .err (.unknownAttributeValue value)
  | "align-items" =>
      match value with
      | "default" => .ok (some (.alignItems .default))
      | "start" => .ok (some (.alignItems .start))
      | "end" => .ok (some (.alignItems .endItems))
      | "flex-start" => .ok (some (.alignItems .flexStart))
      | "flex-end" => .ok (some (.alignItems .flexEnd))
      | "center" => .ok (some (.alignItems .center))
      | "baseline" => .ok (some (.alignItems .baseline))
      | "stretch" => .ok (some (.alignItems .stretch))
      | _ => .err (.unknownAttributeValue value)
  | "justify-items" =>
      match value with
      | "default" => .ok (some (.justifyItems .default))
      | "start" => .ok (some (.justifyItems .start))
      | "end" => .ok (some (.justifyItems .endItems))
      | "center" => .ok (some (.justifyItems .center))
      | "baseline" => .ok (some (.justifyItems .baseline))
      | "stretch" => .ok (some (.justifyItems .stretch))
      | _ => .err (.unknownAttributeValue value)
  | "align-self" =>
      match value with
      | "auto" => .ok (some (.alignSelf .auto))
      | "start" => .ok (some (.alignSelf .start))
      | "end" => .ok (some (.alignSelf .endItems))
      | "flex-start" => .ok (some (.alignSelf .flexStart))
      | "flex-end" => .ok (some (.alignSelf .flexEnd))
      | "center" => .ok (some (.alignSelf .center))
      | "baseline" => .ok (some (.alignSelf .baseline))
      | "stretch" => .ok (some (.alignSelf .stretch))
      | _ => .err (.unknownAttributeValue value)
  | "justify-self" =>
      match value with
      | "auto" => .ok (some (.justifySelf .auto))
      | "start" => .ok (some (.justifySelf .start))
      | "end" => .ok (some (.justifySelf .endItems))
      | "center" => .ok (some (.justifySelf .center))
      | "baseline" => .ok (some (.justifySelf .baseline))
      | "stretch" => .ok (some (.justifySelf .stretch))
      | _ => .err (.unknownAttributeValue value)
  | "align-content" =>
      match value with
      | "default" => .ok (some (.alignContent .default))
      | "start" => .ok (some (.alignContent .start))
      | "end" => .ok (some (.alignContent .endItems))
      | "flex-start" => .ok (some (.alignContent .flexStart))
      | "flex-end" => .ok (some (.alignContent .flexEnd))
      | "center" => .ok (some (.alignContent .center))
      | "stretch" => .ok (some (.alignContent .stretch))
      | "space-between" => .ok (some (.alignContent .spaceBetween))
      | "space-around" => .ok (some (.alignContent .spaceAround))
      | "space-evenly" => .ok (some (.alignContent .spaceEvenly))
      | _ => .err (.unknownAttributeValue value)
  | "justify-content" =>
      match value with
      | "default" => .ok (some (.justifyContent .default))
      | "start" => .ok (some (.justifyContent .start))
      | "end" => .ok (some (.justifyContent .endItems))
      | "flex-start" => .ok (some (.justifyContent .flexStart))
      | "flex-end" => .ok (some (.justifyContent .flexEnd))
      | "center" => .ok (some (.justifyContent .center))
      | "space-between" => .ok (some (.justifyContent .spaceBetween))
      | "space-around" => .ok (some (.justifyContent .spaceAround))
      | "space-evenly" => .ok (some (.justifyContent .spaceEvenly))
      | _ => .err (.unknownAttributeValue value)
  | "flex-direction" =>
      match value with
      | "row" => .ok (some (.flexDirection .row))
      | "column" => .ok (some (.flexDirection .column))
      | "row-reverse" => .ok (some (.flexDirection .rowReverse))
      | "column-reverse" => .ok (some (.flexDirection .columnReverse))
      | _ => .err (.unknownAttributeValue value)
  | "flex-wrap" =>
      match value with
      | "nowrap" => .ok (some (.flexWrap .noWrap))
      | "wrap" => .ok (some (.flexWrap .wrap))
      | "wrap-reverse" => .ok (some (.flexWrap .wrapReverse))
      | _ => .err (.unknownAttributeValue value)
  | "flex-basis" => (StyleAttr.parse_val value).map (fun v => some (.flexBasis v))
  | "row-gap" => (StyleAttr.parse_val value).map (fun v => some (.rowGap v))
  | "column-gap" => (StyleAttr.parse_val value).map (fun v => some (.columnGap v))
  | "gap" => (StyleAttr.parse_val value).map (fun v => some (.gap v))
  | "grid-auto-flow" =>
      match value with
      | "row" => .ok (some (.gridAutoFlow .row))
      | "column" => .ok (some (.gridAutoFlow .column))
      | "row-dense" => .ok (some (.gridAutoFlow .rowDense))
      | "column-dense" => .ok (some (.gridAutoFlow .columnDense))
      | _ => .err (.unknownAttributeValue value)
  | "grid-row" => (StyleAttr.parse_grid_placement value).map (fun g => some (.gridRow g))
  | "grid-row-start" => (StyleAttr.parse_i16 value).map (fun i => some (.gridRowStart i))
  | "grid-row-span" => (StyleAttr.parse_u16 value).map (fun i => some (.gridRowSpan i))
  | "grid-row-end" => (StyleAttr.parse_i16 value).map (fun i => some (.gridRowEnd i))
  | "grid-column" => (StyleAttr.parse_grid_placement value).map (fun g => some (.gridColumn g))
  | "grid-column-start" => (StyleAttr.parse_i16 value).map (fun i => some (.gridColumnStart i))
  | "grid-column-span" => (StyleAttr.parse_u16 value).map (fun i => some (.gridColumnSpan i))
  | "grid-column-end" => (StyleAttr.parse_i16 value).map (fun i => some (.gridColumnEnd i))
  | "line-break" =>
      match value with
      | "nowrap" => .ok (some (.lineBreak .noWrap))
      | "word" => .ok (some (.lineBreak .wordBoundary))
      | "char" => .ok (some (.lineBreak .anyCharacter))
      | _ => .err (.unknownAttributeValue value)
  | _ => .ok none

/-- The recognized attribute-name set of `StyleAttr::parse`. -/
def recognizedAttrNames : List String :=
  ["position", "overflow", "overflow-x", "overflow-y", "direction",
   "align-items", "justify-items", "align-self", "justify-self",
   "align-content", "justify-content", "flex-direction", "flex-wrap",
   "flex-basis", "row-gap", "column-gap", "gap", "grid-auto-flow",
   "grid-row", "grid-row-start", "grid-row-span", "grid-row-end",
   "grid-column", "grid-column-start", "grid-column-span", "grid-column-end",
   "line-break"]

/-- Bevy `AssetPath`, as constructed by the sources:
`AssetPath::new(path, label)`. -/
structure AssetPath where
  path : String
  label : Option String
deriving DecidableEq

/-- Directory prefix of a path, up to and including the last `/`. -/
def dirOf (p : String) : String :=
  String.mk ((p.data.reverse.dropWhile (fun c => c ≠ '/')).reverse)

/-- Modelled from the spec: `relative_asset_path` (`path.rs` is not among the
sources; §6 `resolve_relative(base_path, relative_path) -> AbsolutePath`, §8
"resolving an absolute-form reference is a no-op"): an absolute reference
passes through; a relative one is anchored to the base path's directory. -/
def relative_asset_path (base : AssetPath) (p : String) : AssetPath :=
  if p.startsWith "/" then ⟨p.drop 1, none⟩
  else ⟨dirOf base.path ++ p, none⟩

/-- `AssetRef` (`asset_ref.rs` lines 5-9): the original relative path paired
with the resolved absolute path. -/
structure AssetRef where
  path : String
  resolved : AssetPath
deriving DecidableEq

/-- `AssetRef::new` (`asset_ref.rs` lines 12-17). -/
def AssetRef.new (path : String) : AssetRef :=
  ⟨path, ⟨path, none⟩⟩

/-- `AssetRef::resolve_asset_path` (`asset_ref.rs` lines 19-21): recomputes
`resolved` from the stored original `path` and the base; `path` itself is
never written. -/
def AssetRef.resolve_asset_path (r : AssetRef) (base : AssetPath) : AssetRef :=
  { r with resolved := relative_asset_path base r.path }

/-- Modelled from the spec: `StyleAsset` (`style.rs` is not among the
sources; §3 "ElementStyle-equivalent structured form") — an attribute list
together with the asset references that `resolve_asset_paths` rewrites. -/
structure StyleAsset where
  attrs : List ElementStyleAttr
  refs : List AssetRef

/-- Modelled from the spec: `StyleAsset::resolve_asset_paths` (§4.5) —
resolve every embedded asset reference against the base. -/
def StyleAsset.resolve_asset_paths (s : StyleAsset) (base : AssetPath) : StyleAsset :=
  { s with refs := s.refs.map (fun r => r.resolve_asset_path base) }

/-- Modelled from the spec: the template node tree (§3, `Element | Fragment |
Text | Call`; `template.rs` is not among the sources).  Field lists follow the
uses in `GuiseTemplatesLoader::visit_template_node`; handles are modelled as
the loaded path string. -/
inductive TemplateNode where
  | element (styleset : List String) (styleset_handles : List String)
      (inline_style : Option StyleAsset) (id : Option String)
      (controller : Option String) (attrs : List (String × String))
      (children : List TemplateNode)
  | fragment (children : List TemplateNode)
  | text (s : String)
  | call (inline_style : Option StyleAsset) (template : String)
      (template_handle : String) (params : List (String × Expr))

/-- Modelled from the spec: `TemplateAsset` — its `content` field as used by
`GuiseTemplatesLoader::load`. -/
structure TemplateAsset where
  content : Option TemplateNode

/-- `AssetSerial` (`asset.rs` lines 21-25): named style sheets and named
templates.  The two `HashMap`s are modelled by their iteration sequences. -/
structure AssetSerial where
  styles : List (String × StyleAsset)
  templates : List (String × TemplateAsset)

mutual

/-- `GuiseTemplatesLoader::visit_template_node` (`asset.rs` lines 36-91):
pure rebuild; element style references are loaded relative to `base`, inline
styles are resolved, text leaves pass through by reference. -/
def visit_template_node (lc : String → String) (base : AssetPath) :
    TemplateNode → TemplateNode
  | .element styleset _ inline_style id controller attrs children =>
      .element styleset
        (styleset.map (fun p => lc (relative_asset_path base p).path))
        (inline_style.map (fun sa => sa.resolve_asset_paths base))
        id controller attrs
        (visit_template_list lc base children)
  | .fragment children => .fragment (visit_template_list lc base children)
  | .text s => .text s
  | .call inline_style template _ params =>
      .call (inline_style.map (fun sa => sa.resolve_asset_paths base))
        template (lc (relative_asset_path base template).path) params

def visit_template_list (lc : String → String) (base : AssetPath) :
    List TemplateNode → List TemplateNode
  | [] => []
  | n :: ns => visit_template_node lc base n :: visit_template_list lc base ns

end

/-- What one document load produced: the returned value and the labeled
assets published through the load context. -/
structure LoadOutput where
  result : RustOutcome String AssetSerial
  published_styles : List (String × StyleAsset)
  published_templates : List (String × TemplateAsset)

/-- `GuiseTemplatesLoader::load` (`asset.rs` lines 98-133).  `decode` models
`serde_json::from_slice` (external structured-text decoding), `lc` models
`load_context.load`, `docPath` is `load_context.path()`.  The source runs
`serde_json::from_slice(..).expect("unable to decode templates")`: a decode
failure panics — before any labeled asset is published — instead of being
returned as an `Err`.  On success the styles and templates are drained,
resolved against a per-label base and published. -/
def GuiseTemplatesLoader.load (decode : List Nat → Option AssetSerial)
    (lc : String → String) (docPath : String) (bytes : List Nat) : LoadOutput :=
  match decode bytes with
  | none =>
      { result := .panicked
        published_styles := []
        published_templates := [] }
  | some entries =>
      let pubStyles := entries.styles.map (fun kv =>
        let label := "styles/" ++ kv.1
        let base : AssetPath := ⟨docPath, some label⟩
        (label, kv.2.resolve_asset_paths base))
      let pubTemplates := entries.templates.map (fun kv =>
        let label := "templates/" ++ kv.1
        let base : AssetPath := ⟨docPath, some label⟩
        (label, TemplateAsset.mk (kv.2.content.map (visit_template_node lc base))))
      { result := .ok ⟨[], []⟩
        published_styles := pubStyles
        published_templates := pubTemplates }

/-- The expression-carrying constructors of `ElementStyleAttr`: every variant
of the enum except `BackgroundImage`.  Each of their `apply_attrs_to` arms is
guarded by an evaluation success check. -/
def exprAttrCtors : List (Expr → ElementStyleAttr) :=
  [.backgroundColor, .borderColor, .color, .zIndex,
   .display, .position, .overflow, .overflowX, .overflowY, .direction,
   .left, .right, .top, .bottom,
   .width, .height, .minWidth, .minHeight, .maxWidth, .maxHeight,
   .margin, .marginLeft, .marginRight, .marginTop, .marginBottom,
   .padding, .paddingLeft, .paddingRight, .paddingTop, .paddingBottom,
   .border, .borderLeft, .borderRight, .borderTop, .borderBottom,
   .flexDirection, .flexWrap, .flexGrow, .flexShrink, .flexBasis,
   .rowGap, .columnGap, .gap,
   .alignItems, .alignSelf, .alignContent,
   .justifyItems, .justifySelf, .justifyContent]

theorem evalWith_of_isSome_eq_false {α : Type} (conv : Expr → Option α) (e : Expr)
    (h : (conv e).isSome = false) : evalWith conv e = .error .typeMismatch := by
  unfold evalWith
  cases hc : conv e with
  | none => rfl
  | some a => rw [hc] at h; simp at h

theorem applyAttr_of_evalFail (a : ElementStyleAttr) (c : ComputedStyle)
    (h : a.evalOk = false) : a.applyAttr c = c := by
  cases a <;>
    simp only [ElementStyleAttr.evalOk] at h <;>
    first
      | exact absurd h (by decide)
      | simp only [ElementStyleAttr.applyAttr, evalWith_of_isSome_eq_false _ _ h]

theorem applyAttr_frame (a : ElementStyleAttr) (c : ComputedStyle) (f : Field)
    (hf : f ∉ a.touched) : fieldEq f (a.applyAttr c) c := by
  unfold fieldEq
  cases a <;>
    simp only [ElementStyleAttr.touched, List.mem_cons, List.not_mem_nil, or_false,
      not_or] at hf <;>
    simp only [ElementStyleAttr.applyAttr] <;>
    (try split) <;>
    first
      | rfl
      | (cases f <;> simp_all [ComputedStyle.getField])

theorem applyAttr_overwrite (a : ElementStyleAttr) (c₁ c₂ : ComputedStyle) (f : Field)
    (hok : a.evalOk = true) (hf : f ∈ a.touched) :
    (a.applyAttr c₁).getField f = (a.applyAttr c₂).getField f := by
  cases a <;>
    simp only [ElementStyleAttr.evalOk] at hok <;>
    simp only [ElementStyleAttr.touched] at hf <;>
    first
      | (fin_cases hf <;> rfl)
      | (obtain ⟨v, hv⟩ := Option.isSome_iff_exists.mp hok
         simp only [ElementStyleAttr.applyAttr, evalWith, hv]
         fin_cases hf <;> rfl)

theorem apply_attrs_to_append (xs ys : List ElementStyleAttr) (c : ComputedStyle) :
    ElementStyle.apply_attrs_to (xs ++ ys) c
      = ElementStyle.apply_attrs_to ys (ElementStyle.apply_attrs_to xs c) := by
  simp [ElementStyle.apply_attrs_to, List.foldl_append]

theorem apply_attrs_to_skip (a : ElementStyleAttr) (xs ys : List ElementStyleAttr)
    (c : ComputedStyle) (h : a.evalOk = false) :
    ElementStyle.apply_attrs_to (xs ++ a :: ys) c
      = ElementStyle.apply_attrs_to (xs ++ ys) c := by
  rw [apply_attrs_to_append, apply_attrs_to_append]
  simp only [ElementStyle.apply_attrs_to, List.foldl_cons, applyAttr_of_evalFail a _ h]

theorem fromAstAttr_unknown (lc : String → String) (key : String) (value : Expr)
    (h : key ∉ structuredKeys) :
    fromAstAttr lc key value = .err ("Invalid property: " ++ key) := by
  rw [fromAstAttr.eq_def]
  split <;>
    first
      | rfl
      | (subst_vars; exact absurd (by decide) h)

theorem parse_unknown_name (name value : String) (h : name ∉ recognizedAttrNames) :
    StyleAttr.parse name value = .ok none := by
  rw [StyleAttr.parse.eq_def]
  split <;>
    first
      | rfl
      | (subst_vars; exact absurd (by decide) h)

/-- C1: cascade merge is last-write-wins per underlying field, with composite
attributes expanding to multiple field writes.  Applying
`[Overflow(Clip), OverflowX(Visible)]` — via `StyleAttr::apply` in order, or
via `ElementStyle`'s merge on the corresponding attribute list — yields
`overflow.x = Visible` and `overflow.y = Clip`; in general a later specific
override (`overflow-x`/`overflow-y` after `overflow`, `row-gap` after `gap`)
wins on the field it names and leaves the composite's other field write
intact. -/
theorem C1_composite_then_specific_override :
    (∀ c : ComputedStyle,
       ((StyleAttr.overflowX .visible).apply
           ((StyleAttr.overflow .clip).apply c)).style.overflow.x = .visible ∧
       ((StyleAttr.overflowX .visible).apply
           ((StyleAttr.overflow .clip).apply c)).style.overflow.y = .clip) ∧
    (∀ (c : ComputedStyle) (v₁ v₂ : OverflowAxis),
       ((StyleAttr.overflowX v₂).apply
           ((StyleAttr.overflow v₁).apply c)).style.overflow.x = v₂ ∧
       ((StyleAttr.overflowX v₂).apply
           ((StyleAttr.overflow v₁).apply c)).style.overflow.y = v₁) ∧
    (∀ (c : ComputedStyle) (v₁ v₂ : OverflowAxis),
       ((StyleAttr.overflowY v₂).apply
           ((StyleAttr.overflow v₁).apply c)).style.overflow.y = v₂ ∧
       ((StyleAttr.overflowY v₂).apply
           ((StyleAttr.overflow v₁).apply c)).style.overflow.x = v₁) ∧
    (∀ (c : ComputedStyle) (g r : Val),
       ((StyleAttr.rowGap r).apply ((StyleAttr.gap g).apply c)).style.row_gap = r ∧
       ((StyleAttr.rowGap r).apply ((StyleAttr.gap g).apply c)).style.column_gap = g) ∧
    (∀ (c : ComputedStyle) (e₁ e₂ : Expr) (v₁ v₂ : OverflowAxis),
       Expr.into_overflow_axis e₁ = some v₁ →
       Expr.into_overflow_axis e₂ = some v₂ →
       (ElementStyle.apply_to ⟨[.overflow e₁, .overflowX e₂]⟩ c).style.overflow.x = v₂ ∧
       (ElementStyle.apply_to ⟨[.overflow e₁, .overflowX e₂]⟩ c).style.overflow.y = v₁) := by
  refine ⟨fun c => ⟨rfl, rfl⟩, fun c v₁ v₂ => ⟨rfl, rfl⟩, fun c v₁ v₂ => ⟨rfl, rfl⟩,
    fun c g r => ⟨rfl, rfl⟩, fun c e₁ e₂ v₁ v₂ h₁ h₂ => ?_⟩
  simp [ElementStyle.apply_to, ElementStyle.apply_attrs_to, ElementStyleAttr.applyAttr,
    evalWith, h₁, h₂]

theorem C1_composite_then_specific_override_witness :
    (ElementStyle.apply_to
        ⟨[.overflow (Expr.ident "clip"), .overflowX (Expr.ident "visible")]⟩
        sampleComputed).style.overflow.x = .visible ∧
    (ElementStyle.apply_to
        ⟨[.overflow (Expr.ident "clip"), .overflowX (Expr.ident "visible")]⟩
        sampleComputed).style.overflow.y = .clip :=
  C1_composite_then_specific_override.2.2.2.2 sampleComputed
    (Expr.ident "clip") (Expr.ident "visible") .clip .visible rfl rfl

/-- C2: evaluation failure is non-fatal and field-preserving.  The merge
engine folds the sequence once in forward order; an attribute whose guard
fails is the identity on the computed style, never aborts the sequence, and a
succeeding attribute overwrites exactly its named field(s): every unnamed
slot is preserved, and every named slot's new value is independent of the
previous computed style. -/
theorem C2_eval_failure_swallowed_field_granular :
    (∀ (a : ElementStyleAttr) (c : ComputedStyle),
        a.evalOk = false → a.applyAttr c = c) ∧
    (∀ (xs ys : List ElementStyleAttr) (c : ComputedStyle),
        ElementStyle.apply_attrs_to (xs ++ ys) c
          = ElementStyle.apply_attrs_to ys (ElementStyle.apply_attrs_to xs c)) ∧
    (∀ (a : ElementStyleAttr) (xs ys : List ElementStyleAttr) (c : ComputedStyle),
        a.evalOk = false →
        ElementStyle.apply_attrs_to (xs ++ a :: ys) c
          = ElementStyle.apply_attrs_to (xs ++ ys) c) ∧
    (∀ (a : ElementStyleAttr) (c : ComputedStyle) (f : Field),
        f ∉ a.touched → fieldEq f (a.applyAttr c) c) ∧
    (∀ (a : ElementStyleAttr) (c₁ c₂ : ComputedStyle) (f : Field),
        a.evalOk = true → f ∈ a.touched →
        (a.applyAttr c₁).getField f = (a.applyAttr c₂).getField f) :=
  ⟨applyAttr_of_evalFail, apply_attrs_to_append, apply_attrs_to_skip,
   applyAttr_frame, applyAttr_overwrite⟩

theorem C2_eval_failure_swallowed_field_granular_witness :
    ((ElementStyleAttr.display (Expr.number ⟨3, 0⟩)).applyAttr sampleComputed
        = sampleComputed) ∧
    (ElementStyle.apply_attrs_to
        ([.width (Expr.length (.px ⟨5, 0⟩))]
          ++ ElementStyleAttr.display (Expr.number ⟨3, 0⟩)
            :: [.height (Expr.length .auto)]) sampleComputed
      = ElementStyle.apply_attrs_to
          ([.width (Expr.length (.px ⟨5, 0⟩))] ++ [.height (Expr.length .auto)])
          sampleComputed) ∧
    fieldEq .height
      ((ElementStyleAttr.width (Expr.length (.px ⟨5, 0⟩))).applyAttr sampleComputed)
      sampleComputed ∧
    ((ElementStyleAttr.width (Expr.length (.px ⟨5, 0⟩))).applyAttr
        sampleComputed).getField .width
      = ((ElementStyleAttr.width (Expr.length (.px ⟨5, 0⟩))).applyAttr
          { sampleComputed with style.width := .percent ⟨50, 0⟩ }).getField .width :=
  ⟨C2_eval_failure_swallowed_field_granular.1 _ _ (by decide),
   C2_eval_failure_swallowed_field_granular.2.2.1 _ _ _ _ (by decide),
   C2_eval_failure_swallowed_field_granular.2.2.2.1 _ _ _ (by decide),
   C2_eval_failure_swallowed_field_granular.2.2.2.2 _ _ _ _ (by decide) (by decide)⟩

/-- C3: `parse_val` accepts `auto` and `<signed-float><unit?>` with the unit
defaulting to pixels, and rejects unknown units and trailing garbage with an
Invalid-value error — but, contrary to the claim, it is not panic-free: the
malformed numeric `"1.1.1"` is accepted by the loose capture class
`[\-\d\.]+` and then panics in `f32::from_str(..).unwrap()`. -/
theorem C3_parse_val_grammar_not_panic_free :
    StyleAttr.parse_val "auto" = .ok .auto ∧
    StyleAttr.parse_val "1" = .ok (.px ⟨1, 0⟩) ∧
    StyleAttr.parse_val "1px" = .ok (.px ⟨1, 0⟩) ∧
    StyleAttr.parse_val "1.1px" = .ok (.px ⟨11, 1⟩) ∧
    StyleAttr.parse_val "1vw" = .ok (.vw ⟨1, 0⟩) ∧
    StyleAttr.parse_val "1vh" = .ok (.vh ⟨1, 0⟩) ∧
    StyleAttr.parse_val "2vmin" = .ok (.vmin ⟨2, 0⟩) ∧
    StyleAttr.parse_val "2vmax" = .ok (.vmax ⟨2, 0⟩) ∧
    StyleAttr.parse_val "-2.5%" = .ok (.percent ⟨-25, 1⟩) ∧
    StyleAttr.parse_val "1.1bad" = .err (.invalidAttributeValue "1.1bad") ∧
    StyleAttr.parse_val "bad" = .err (.invalidAttributeValue "bad") ∧
    StyleAttr.parse_val "1.1.1bad" = .err (.invalidAttributeValue "1.1.1bad") ∧
    StyleAttr.parse_val "1.1.1" = .panicked := by
  decide

/-- C4: `parse_uirect` implements the CSS shorthand defaulting over 1-4
whitespace-separated length tokens in (top, right, bottom, left) order, and
errors on zero or more than four tokens and on tokens rejected by the length
grammar — but a token such as `"1.1.1"`, which the claim also calls a failing
token, panics (through `parse_val`'s unwrap) instead of erroring. -/
theorem C4_parse_uirect_shorthand_not_panic_free :
    StyleAttr.parse_uirect "1px"
      = .ok (UiRect.new (.px ⟨1, 0⟩) (.px ⟨1, 0⟩) (.px ⟨1, 0⟩) (.px ⟨1, 0⟩)) ∧
    StyleAttr.parse_uirect "1px 2px"
      = .ok (UiRect.new (.px ⟨2, 0⟩) (.px ⟨2, 0⟩) (.px ⟨1, 0⟩) (.px ⟨1, 0⟩)) ∧
    StyleAttr.parse_uirect "1px 2px 3px"
      = .ok (UiRect.new (.px ⟨2, 0⟩) (.px ⟨2, 0⟩) (.px ⟨1, 0⟩) (.px ⟨3, 0⟩)) ∧
    StyleAttr.parse_uirect "1px 2px 3px 4px"
      = .ok (UiRect.new (.px ⟨4, 0⟩) (.px ⟨2, 0⟩) (.px ⟨1, 0⟩) (.px ⟨3, 0⟩)) ∧
    StyleAttr.parse_uirect "1px 2px 3px 4px 5px"
      = .err (.invalidAttributeValue "1px 2px 3px 4px 5px") ∧
    StyleAttr.parse_uirect "" = .err (.invalidAttributeValue "") ∧
    StyleAttr.parse_uirect "1.1bad" = .err (.invalidAttributeValue "1.1bad") ∧
    StyleAttr.parse_uirect "1.1.1" = .panicked := by
  decide

/-- C7: `parse_grid_placement` accepts `"<start>/<end>"` and
`"<start>/span <count>"` with integer tokens and errors on other shapes — but
it is not panic-free: a token accepted by the loose capture class `[\d\.]+`
whose integer parse fails (a dot as in `"1.5/2"`, or an out-of-range value as
in `"99999/1"`) panics in `i16::from_str(..).unwrap()`. -/
theorem C7_parse_grid_placement_forms_not_panic_free :
    StyleAttr.parse_grid_placement "2/4" = .ok ⟨some 2, some 1, some 4⟩ ∧
    StyleAttr.parse_grid_placement "2 / 4" = .ok ⟨some 2, some 1, some 4⟩ ∧
    StyleAttr.parse_grid_placement "2/span 3" = .ok ⟨some 2, some 3, none⟩ ∧
    StyleAttr.parse_grid_placement "bad" = .err (.invalidAttributeValue "bad") ∧
    StyleAttr.parse_grid_placement "2" = .err (.invalidAttributeValue "2") ∧
    StyleAttr.parse_grid_placement "2/" = .err (.invalidAttributeValue "2/") ∧
    StyleAttr.parse_grid_placement "1.5/2" = .panicked ∧
    StyleAttr.parse_grid_placement "99999/1" = .panicked ∧
    StyleAttr.parse "grid-row" "2/4" = .ok (some (.gridRow ⟨some 2, some 1, some 4⟩)) ∧
    StyleAttr.parse "grid-column" "2/span 3"
      = .ok (some (.gridColumn ⟨some 2, some 3, none⟩)) :=
  ⟨by decide, by decide, by decide, by decide, by decide, by decide, by decide,
   by decide, by rfl, by rfl⟩

/-- C5: unknown-name handling is asymmetric between the two parsing surfaces.
Any attribute name outside the string parser's recognized set yields
`Ok(None)` regardless of the value; any property key outside the
structured-document parser's recognized set makes `from_ast` fail with a hard
error whose message names that key. -/
theorem C5_unknown_name_asymmetry :
    (∀ name value : String,
        name ∉ recognizedAttrNames → StyleAttr.parse name value = .ok none) ∧
    (∀ (lc : String → String) (key : String) (value : Expr)
        (rest : List (String × Expr)),
        key ∉ structuredKeys →
        ElementStyle.from_ast lc ((key, value) :: rest)
          = .err ("Invalid property: " ++ key)) := by
  refine ⟨parse_unknown_name, fun lc key value rest h => ?_⟩
  simp only [ElementStyle.from_ast, fromAstAttr_unknown lc key value h]

theorem C5_unknown_name_asymmetry_witness :
    StyleAttr.parse "not-a-style-attr" "anything" = .ok none ∧
    ElementStyle.from_ast (fun p => p) [("not_a_real_property", Expr.number ⟨1, 0⟩)]
      = .err ("Invalid property: " ++ "not_a_real_property") :=
  ⟨C5_unknown_name_asymmetry.1 "not-a-style-attr" "anything" (by decide),
   C5_unknown_name_asymmetry.2 (fun p => p) "not_a_real_property"
     (Expr.number ⟨1, 0⟩) [] (by decide)⟩

/-- C8: reference resolution is idempotent with respect to the same base:
re-resolving an already-resolved `AssetRef` against the same base yields the
same state, because resolution recomputes `resolved` from the stored original
`path`, which it never alters. -/
theorem C8_resolve_asset_path_idempotent :
    ∀ (r : AssetRef) (base : AssetPath),
      (r.resolve_asset_path base).resolve_asset_path base
          = r.resolve_asset_path base ∧
      (r.resolve_asset_path base).path = r.path :=
  fun _ _ => ⟨rfl, rfl⟩

/-- C9: when the document bytes do not decode, `GuiseTemplatesLoader::load`
publishes nothing — but, contrary to the claim, it does not return an error
result: the source's `.expect("unable to decode templates")` panics. -/
theorem C9_decode_failure_panics_nothing_published :
    ∀ (decode : List Nat → Option AssetSerial) (lc : String → String)
      (docPath : String) (bytes : List Nat),
      decode bytes = none →
      GuiseTemplatesLoader.load decode lc docPath bytes
        = ⟨.panicked, [], []⟩ := by
  intro decode lc docPath bytes h
  simp [GuiseTemplatesLoader.load, h]

theorem C9_decode_failure_panics_nothing_published_witness :
    GuiseTemplatesLoader.load (fun _ => none) (fun p => p)
        "ui/widgets.guise.json" [110, 111, 116]
      = ⟨.panicked, [], []⟩ :=
  C9_decode_failure_panics_nothing_published _ _ _ _ rfl

/-- C10: `background-image` is the only attribute applied without an
evaluation-success guard, and it always writes: its arm unconditionally sets
the computed image to its payload — including `None` (produced by `from_ast`
from a null value or the identifier `none`), which clears an image set
earlier in the cascade — while every expression-carrying variant is a no-op
when its guard fails (e.g. on an asset-path payload, which no conversion
accepts). -/
theorem C10_background_image_unguarded_write :
    (∀ (c : ComputedStyle) (img : Option String),
        (ElementStyleAttr.backgroundImage img).applyAttr c = { c with image := img }) ∧
    (∀ (c : ComputedStyle) (img : Option String) (rest : List ElementStyleAttr),
        ElementStyle.apply_attrs_to (.backgroundImage img :: rest) c
          = ElementStyle.apply_attrs_to rest { c with image := img }) ∧
    (∀ (c : ComputedStyle) (img : String),
        (ElementStyle.apply_to ⟨[.backgroundImage none]⟩
            (ElementStyle.apply_to ⟨[.backgroundImage (some img)]⟩ c)).image = none) ∧
    (∀ lc : String → String,
        fromAstAttr lc "background_image" Expr.null = .ok (.backgroundImage none)) ∧
    (∀ lc : String → String,
        fromAstAttr lc "background_image" (Expr.ident "none")
          = .ok (.backgroundImage none)) ∧
    (∀ (lc : String → String) (p : String),
        fromAstAttr lc "background_image" (Expr.assetPath p)
          = .ok (.backgroundImage (some (lc p)))) ∧
    (∀ mk : Expr → ElementStyleAttr, mk ∈ exprAttrCtors →
        ∀ c : ComputedStyle, (mk (Expr.assetPath "x")).applyAttr c = c) := by
  refine ⟨fun c img => rfl, fun c img rest => rfl, fun c img => rfl,
    fun lc => rfl, fun lc => rfl, fun lc p => rfl, fun mk hmk c => ?_⟩
  fin_cases hmk <;> rfl

theorem C10_background_image_unguarded_write_witness :
    (ElementStyleAttr.backgroundColor (Expr.assetPath "x")).applyAttr sampleComputed
      = sampleComputed :=
  C10_background_image_unguarded_write.2.2.2.2.2.2
    ElementStyleAttr.backgroundColor (List.Mem.head _) sampleComputed

end Panoply
